import Mathlib

/-!
# Single-instance lock of the transformer test simulator

Shallow embedding of `assets/single_instance.js`: the cross-tab lock kept in
`localStorage` under one key, its heartbeat and its release on unload.

The browser is modelled by explicit state:

* `Storage` : the slot of `localStorage` under `lockKey`, with the ways the
  storage API can throw;
* `Tab`     : the three module variables of the script together with the part of
  the page the script touches (overlay element, body scroll lock, the
  `beforeunload` listener, the interval timers of the page);
* `World`   : one tab, the storage it shares with the other tabs, and the two
  sources of outside values, `Date.now()` and `Math.random()`.

JavaScript functions become `JsM` computations: a function from the world to a
completion (normal or thrown) and the world it leaves behind.  Changes made
before a `throw` stay in place, as in JavaScript.  Console output is not part
of the state.
-/

namespace SingleInstance

/-! ## Values -/

/-- Primitive values a property of the parsed lock can hold. -/
inductive JsValue where
  | undefined
  | null
  | bool (b : Bool)
  | number (n : Int)
  | string (s : String)
  deriving DecidableEq, Repr

/-- Result of the Number coercion of a value: an integer, or `NaN`.
Fractions and infinities are left out. -/
inductive JsNumber where
  | nan
  | int (n : Int)
  deriving DecidableEq, Repr

/-- Text held under the lock key, described by what `JSON.parse` and the two
property reads `.token` and `.timestamp` make of it.

* `malformed text` : a text on which `JSON.parse` throws a `SyntaxError`; the
  empty text `""` is one of them (and the only falsy text);
* `jsonNull`       : the text `null`;
* `json token timestamp` : the text of any other JSON value; `token` is what
  `.token` reads (`undefined` when the property is missing) and `timestamp` is
  the Number that `Date.now() - lock.timestamp` coerces `.timestamp` to (`NaN`
  when the property is missing or not numeric).

A LockRecord written by the script is `json (.string token) (.int timestamp)`. -/
inductive StoredItem where
  | malformed (text : String)
  | jsonNull
  | json (token : JsValue) (timestamp : JsNumber)
  deriving DecidableEq, Repr

/-- Value produced by `JSON.parse`: `null`, or a value seen through its two
properties. -/
inductive Parsed where
  | null
  | value (token : JsValue) (timestamp : JsNumber)
  deriving DecidableEq, Repr

/-- Exceptions the modelled operations can throw. -/
inductive JsError where
  | syntaxError
  | typeError
  | securityError
  | quotaExceeded
  deriving DecidableEq, Repr

/-- How the storage API behaves for this page.

* `working`      : every call succeeds;
* `writesFail`   : `setItem` throws `QuotaExceededError`, reads and removals succeed;
* `inaccessible` : every access to `localStorage` throws `SecurityError`. -/
inductive StorageMode where
  | working
  | writesFail
  | inaccessible
  deriving DecidableEq, Repr

/-- The storage shared by the tabs of the origin, reduced to the lock key. -/
structure Storage where
  mode : StorageMode
  item : Option StoredItem
  deriving DecidableEq, Repr

/-- Module variables of the script (`myToken`, `heartbeatInterval`,
`isLockedByThisTab`) and the page state the script acts on. -/
structure Tab where
  /-- Line 8: `let myToken = null`. -/
  myToken : Option String
  /-- Line 9: `let heartbeatInterval = null`; otherwise a handle of `setInterval`. -/
  heartbeatInterval : Option Nat
  /-- Line 10: `let isLockedByThisTab = false`. -/
  isLockedByThisTab : Bool
  /-- Message inside the element `dash-instance-lock-overlay`; `none` while the
  element does not exist. -/
  overlay : Option String
  /-- Whether `document.body.style.overflow` is `hidden`. -/
  bodyOverflowHidden : Bool
  /-- Whether `releaseLock` is registered for `beforeunload`. -/
  beforeunloadReleaseLock : Bool
  /-- Handles of the interval timers of the page that are running. -/
  intervals : List Nat
  /-- Number of timers the page has created so far. -/
  intervalsCreated : Nat
  deriving DecidableEq, Repr

/-- One tab in its environment. `clock k` is the value of the `k`-th call of
`Date.now()`; `randomText` is what `Math.random().toString(36).substring(2, 15)`
yields. -/
structure World where
  storage : Storage
  clock : Nat → Int
  clockReads : Nat
  randomText : String
  tab : Tab

/-- State of the script right after it is loaded (lines 8 to 10), on a page with
no overlay, no listener and no timer. -/
def Tab.initial : Tab :=
  { myToken := none, heartbeatInterval := none, isLockedByThisTab := false,
    overlay := none, bodyOverflowHidden := false, beforeunloadReleaseLock := false,
    intervals := [], intervalsCreated := 0 }

/-- World in which the script of a freshly loaded page starts. -/
def pageLoad (storage : Storage) (clock : Nat → Int) (reads : Nat) (randomText : String) :
    World :=
  { storage := storage, clock := clock, clockReads := reads, randomText := randomText,
    tab := Tab.initial }

/-! ## Computations -/

/-- How a JavaScript evaluation ends. -/
inductive Completion (α : Type) where
  | normal (value : α)
  | thrown (error : JsError)
  deriving DecidableEq, Repr

/-- A JavaScript computation over the world. -/
def JsM (α : Type) : Type := World → Completion α × World

namespace JsM

/-- Finish normally with a value. -/
def ret {α : Type} (a : α) : JsM α := fun w => (Completion.normal a, w)

/-- Sequencing: a throw in the first part skips the second and keeps the world
reached so far. -/
def andThen {α β : Type} (m : JsM α) (f : α → JsM β) : JsM β := fun w =>
  match m w with
  | (Completion.normal a, w1) => f a w1
  | (Completion.thrown e, w1) => (Completion.thrown e, w1)

/-- The statement `try body catch (e) handler`. -/
def tryCatch {α : Type} (body : JsM α) (handler : JsError → JsM α) : JsM α := fun w =>
  match body w with
  | (Completion.normal a, w1) => (Completion.normal a, w1)
  | (Completion.thrown e, w1) => handler e w1

/-- The statement `throw e`. -/
def raise {α : Type} (e : JsError) : JsM α := fun w => (Completion.thrown e, w)

end JsM

instance : Monad JsM where
  pure := JsM.ret
  bind := JsM.andThen

/-- Read the tab state. -/
def getTab : JsM Tab := fun w => (Completion.normal w.tab, w)

/-- Update the tab state. -/
def modifyTab (f : Tab → Tab) : JsM Unit := fun w =>
  (Completion.normal (), { w with tab := f w.tab })

/-! ## Platform operations -/

/-- The call `Date.now()`. -/
def dateNow : JsM Int := fun w =>
  (Completion.normal (w.clock w.clockReads), { w with clockReads := w.clockReads + 1 })

/-- The expression `Math.random().toString(36).substring(2, 15)`. -/
def mathRandomText : JsM String := fun w => (Completion.normal w.randomText, w)

/-- The call `localStorage.getItem(lockKey)`. -/
def localStorageGetItem : JsM (Option StoredItem) := fun w =>
  match w.storage.mode with
  | StorageMode.inaccessible => (Completion.thrown JsError.securityError, w)
  | _ => (Completion.normal w.storage.item, w)

/-- The call `localStorage.setItem(lockKey, value)`. -/
def localStorageSetItem (value : StoredItem) : JsM Unit := fun w =>
  match w.storage.mode with
  | StorageMode.working =>
      (Completion.normal (), { w with storage := { w.storage with item := some value } })
  | StorageMode.writesFail => (Completion.thrown JsError.quotaExceeded, w)
  | StorageMode.inaccessible => (Completion.thrown JsError.securityError, w)

/-- The call `localStorage.removeItem(lockKey)`. -/
def localStorageRemoveItem : JsM Unit := fun w =>
  match w.storage.mode with
  | StorageMode.inaccessible => (Completion.thrown JsError.securityError, w)
  | _ => (Completion.normal (), { w with storage := { w.storage with item := none } })

/-- Truthiness of what `getItem` returned: `null` and the empty text are falsy. -/
def isTruthy : Option StoredItem → Bool
  | none => false
  | some (StoredItem.malformed text) => text != ""
  | some _ => true

/-- The call `JSON.parse(storedLockData)`; `JSON.parse(null)` is `null`. -/
def jsonParse : Option StoredItem → JsM Parsed
  | none => pure Parsed.null
  | some (StoredItem.malformed _) => JsM.raise JsError.syntaxError
  | some StoredItem.jsonNull => pure Parsed.null
  | some (StoredItem.json token timestamp) => pure (Parsed.value token timestamp)

/-- The call `JSON.stringify({ token: myToken, timestamp: now })`, as the text
it yields; a `null` token is written as `null`. -/
def jsonStringify (token : Option String) (now : Int) : StoredItem :=
  match token with
  | some t => StoredItem.json (JsValue.string t) (JsNumber.int now)
  | none => StoredItem.json JsValue.null (JsNumber.int now)

/-- The property read `lock.timestamp` (under the Number coercion); reading a
property of `null` throws a `TypeError`. -/
def lockTimestamp : Parsed → JsM JsNumber
  | Parsed.null => JsM.raise JsError.typeError
  | Parsed.value _ timestamp => pure timestamp

/-- The property read `lock.token`. -/
def lockToken : Parsed → JsM JsValue
  | Parsed.null => JsM.raise JsError.typeError
  | Parsed.value token _ => pure token

/-- The subtraction `now - timestamp`; `NaN` propagates. -/
def numSub (now : Int) : JsNumber → JsNumber
  | JsNumber.nan => JsNumber.nan
  | JsNumber.int t => JsNumber.int (now - t)

/-- The comparison `a > b`; every comparison with `NaN` is false. -/
def numGt (a : JsNumber) (b : Int) : Bool :=
  match a with
  | JsNumber.nan => false
  | JsNumber.int n => decide (n > b)

/-- The comparison `value === myToken`, where `myToken` is `null` or a string. -/
def strictEqToken (value : JsValue) (myToken : Option String) : Bool :=
  match value, myToken with
  | JsValue.string s, some t => decide (s = t)
  | JsValue.null, none => true
  | _, _ => false

/-- The call `clearInterval(handle)`. -/
def clearInterval (handle : Nat) : JsM Unit :=
  modifyTab fun t => { t with intervals := t.intervals.erase handle }

/-- The call `setInterval(callback, heartbeatFrequency)`: handles are positive
and never reused. -/
def setInterval : JsM Nat := fun w =>
  let handle := w.tab.intervalsCreated + 1
  (Completion.normal handle,
    { w with tab := { w.tab with intervals := handle :: w.tab.intervals,
                                 intervalsCreated := handle } })

/-! ## The script -/

/-- Line 4. -/
def lockKey : String := "transformerSimulatorInstanceLock_v1"

/-- Line 5. -/
def maxLockAge : Int := 15000

/-- Line 6. -/
def heartbeatFrequency : Int := 5000

/-- Message of line 64. -/
def storageAccessMessage : String :=
  "Não foi possível acessar o armazenamento local para controlar instâncias. Verifique as permissões do navegador ou se o armazenamento está cheio."

/-- Message of line 152. -/
def otherInstanceMessage : String :=
  "Outra janela ou aba desta aplicação já está aberta."

/-- Message of line 164. -/
def lockCheckMessage : String :=
  "Erro ao verificar o bloqueio de instância. O armazenamento local pode estar corrompido ou inacessível."

/-- Lines 13 to 15. -/
def generateToken : JsM String := do
  let now ← dateNow
  let rnd ← mathRandomText
  pure (toString now ++ "-" ++ rnd)

/-- Lines 97 to 103. -/
def stopHeartbeat : JsM Unit := do
  let t ← getTab
  match t.heartbeatInterval with
  | some handle =>
      if handle ≠ 0 then do
        clearInterval handle
        modifyTab fun t => { t with heartbeatInterval := none }
      else pure ()
  | none => pure ()

/-- Lines 18 to 52. -/
def displayInstanceError (message : String) : JsM Unit := do
  modifyTab fun t => { t with overlay := some message }
  modifyTab fun t => { t with bodyOverflowHidden := true }
  stopHeartbeat

/-- Lines 55 to 68. -/
def acquireOrRefreshLock : JsM Bool := do
  let t ← getTab
  let now ← dateNow
  let lockData := jsonStringify t.myToken now
  JsM.tryCatch
    (do
      localStorageSetItem lockData
      modifyTab fun t => { t with isLockedByThisTab := true }
      pure true)
    (fun _ => do
      displayInstanceError storageAccessMessage
      modifyTab fun t => { t with isLockedByThisTab := false }
      pure false)

/-- Lines 71 to 94. -/
def releaseLock : JsM Unit := do
  let t ← getTab
  if !t.isLockedByThisTab then
    pure ()
  else do
    JsM.tryCatch
      (do
        let storedLockData ← localStorageGetItem
        if isTruthy storedLockData then do
          let lock ← jsonParse storedLockData
          let token ← lockToken lock
          if strictEqToken token t.myToken then
            localStorageRemoveItem
          else
            pure ()
        else pure ())
      (fun _ => pure ())
    stopHeartbeat
    modifyTab fun t => { t with isLockedByThisTab := false }

/-- Lines 108 to 125: the callback given to `setInterval`. -/
def heartbeatTick : JsM Unit := do
  let t ← getTab
  if !t.isLockedByThisTab then
    stopHeartbeat
  else
    JsM.tryCatch
      (do
        let ok ← acquireOrRefreshLock
        if !ok then stopHeartbeat else pure ())
      (fun _ => stopHeartbeat)

/-- Lines 106 to 127. -/
def startHeartbeat : JsM Unit := do
  stopHeartbeat
  let handle ← setInterval
  modifyTab fun t => { t with heartbeatInterval := some handle }

/-- Lines 130 to 177. -/
def checkAndManageInstance : JsM Unit := do
  let token ← generateToken
  modifyTab fun t => { t with myToken := some token }
  let proceed ← JsM.tryCatch
    (do
      let storedLockData ← localStorageGetItem
      if isTruthy storedLockData then do
        let lock ← jsonParse storedLockData
        let now ← dateNow
        let timestamp ← lockTimestamp lock
        let lockAge := numSub now timestamp
        if numGt lockAge maxLockAge then do
          let acquired ← acquireOrRefreshLock
          if acquired then pure true else pure false
        else do
          displayInstanceError otherInstanceMessage
          pure false
      else do
        let acquired ← acquireOrRefreshLock
        if acquired then pure true else pure false)
    (fun _ => do
      displayInstanceError lockCheckMessage
      pure false)
  if proceed then do
    modifyTab fun t => { t with beforeunloadReleaseLock := true }
    startHeartbeat
  else
    stopHeartbeat

end SingleInstance

namespace SingleInstance

/-! ## Vocabulary of the specification -/

/-- A LockRecord `{token, timestamp}` as the text the script stores for it. -/
def lockRecord (token : String) (timestamp : Int) : StoredItem :=
  StoredItem.json (JsValue.string token) (JsNumber.int timestamp)

/-- The string token of the stored value, when it has one. -/
def storedToken : Option StoredItem → Option String
  | some (StoredItem.json (JsValue.string s) _) => some s
  | _ => none

/-- The token `generateToken` hands to a tab whose first clock reading is
`clock reads`. -/
def startToken (clock : Nat → Int) (reads : Nat) (randomText : String) : String :=
  toString (clock reads) ++ "-" ++ randomText

/-- The startup check of a freshly loaded page: `checkAndManageInstance` run
from `pageLoad`. -/
def startupCheck (storage : Storage) (clock : Nat → Int) (reads : Nat) (randomText : String) :
    Completion Unit × World :=
  checkAndManageInstance (pageLoad storage clock reads randomText)

/-- The renewal loop is running: `heartbeatInterval` holds the handle of a live
timer of the page. -/
def Tab.heartbeatRunning (t : Tab) : Bool :=
  match t.heartbeatInterval with
  | some handle => handle != 0 && t.intervals.contains handle
  | none => false

/-- State `ACTIVE` of the specification: the tab holds the lock, its release is
registered for unload and its renewal loop runs. -/
def Tab.isActive (t : Tab) : Bool :=
  t.isLockedByThisTab && t.beforeunloadReleaseLock && t.heartbeatRunning

/-- State `BLOCKED` of the specification: the overlay is up and nothing that
could renew or release the lock is in place. -/
def Tab.isBlocked (t : Tab) : Bool :=
  t.overlay.isSome && !t.isLockedByThisTab && !t.beforeunloadReleaseLock &&
    t.heartbeatInterval.isNone && t.intervals.isEmpty

/-- The tab after `stopHeartbeat` (lines 97 to 103): a truthy handle is cleared
and the variable reset, anything else is left alone. -/
def Tab.heartbeatStopped (t : Tab) : Tab :=
  match t.heartbeatInterval with
  | some handle =>
      if handle ≠ 0 then
        { t with intervals := t.intervals.erase handle, heartbeatInterval := none }
      else t
  | none => t

/-- The slot after the `try` block of `releaseLock` (lines 76 to 87) in a
readable storage: emptied when the stored token is strictly equal to `myToken`,
otherwise as it was. -/
def releasedItem (myToken : Option String) (item : Option StoredItem) : Option StoredItem :=
  match item with
  | some (StoredItem.json token _) => if strictEqToken token myToken then none else item
  | _ => item

/-- Stored texts on which the `try` block of the startup check throws: a
non-empty text that `JSON.parse` rejects, and the text `null`, whose
`.timestamp` cannot be read. -/
def readThrows : StoredItem → Bool
  | StoredItem.malformed text => text != ""
  | StoredItem.jsonNull => true
  | StoredItem.json _ _ => false

/-- The world `w` with the shared storage replaced: what a tab faces once other
tabs have written to the store, or once the store has stopped taking writes. -/
def withStorage (w : World) (storage : Storage) : World :=
  { w with storage := storage }

/-- A tab whose flag `isLockedByThisTab` is set sits on a page whose storage
can be read. The flag is only ever set after a `setItem` that succeeded on this
page (line 60), so this holds in every state the script reaches as long as the
page keeps its access to `localStorage`. -/
def lockHolderCanRead (w : World) : Prop :=
  w.tab.isLockedByThisTab = true → w.storage.mode ≠ StorageMode.inaccessible

/-- The world after `n` successive heartbeat ticks of the tab, the store being
touched by nobody else in between. -/
def heartbeatTicks : Nat → World → World
  | 0, w => w
  | n + 1, w => (heartbeatTick (heartbeatTicks n w)).2

/-! ## Support lemmas: the startup check, case by case -/

/-- With a stored JSON value that does not count as stale, or with a storage
that cannot be read, the check ends with an overlay and touches nothing else. -/
theorem startupCheck_not_stale (mode : StorageMode) (clock : Nat → Int) (reads : Nat)
    (rnd : String) (token : JsValue) (timestamp : JsNumber)
    (h : numGt (numSub (clock (reads + 1)) timestamp) maxLockAge = false) :
    startupCheck ⟨mode, some (StoredItem.json token timestamp)⟩ clock reads rnd
      = (Completion.normal (),
          { storage := ⟨mode, some (StoredItem.json token timestamp)⟩
            clock := clock
            clockReads := if mode = StorageMode.inaccessible then reads + 1 else reads + 2
            randomText := rnd
            tab := { Tab.initial with
              myToken := some (startToken clock reads rnd)
              overlay := some (if mode = StorageMode.inaccessible then lockCheckMessage
                               else otherInstanceMessage)
              bodyOverflowHidden := true } }) := by
  cases mode <;>
  simp [startupCheck, startToken, checkAndManageInstance, generateToken, dateNow,
    mathRandomText, modifyTab, getTab, localStorageGetItem, isTruthy, jsonParse,
    lockTimestamp, displayInstanceError, stopHeartbeat, pageLoad, Tab.initial, bind, pure,
    JsM.andThen, JsM.ret, JsM.tryCatch, JsM.raise, h]

/-- With nothing (or the empty text) under the key and a storage that takes the
write, the check stores this tab's record and sets the tab up. -/
theorem startupCheck_acquires (clock : Nat → Int) (reads : Nat) (rnd : String)
    (item : Option StoredItem) (h : isTruthy item = false) :
    startupCheck ⟨StorageMode.working, item⟩ clock reads rnd
      = (Completion.normal (),
          { storage := ⟨StorageMode.working,
                        some (lockRecord (startToken clock reads rnd) (clock (reads + 1)))⟩
            clock := clock
            clockReads := reads + 2
            randomText := rnd
            tab := { Tab.initial with
              myToken := some (startToken clock reads rnd)
              isLockedByThisTab := true
              beforeunloadReleaseLock := true
              heartbeatInterval := some 1
              intervals := [1]
              intervalsCreated := 1 } }) := by
  simp [startupCheck, startToken, lockRecord, checkAndManageInstance, generateToken, dateNow,
    mathRandomText, modifyTab, getTab, localStorageGetItem, localStorageSetItem,
    acquireOrRefreshLock, jsonStringify, startHeartbeat, setInterval, stopHeartbeat,
    pageLoad, Tab.initial, bind, pure, JsM.andThen, JsM.ret, JsM.tryCatch, h]

/-- With nothing (or the empty text) under the key and a storage that rejects
the write, the check ends with the storage overlay and the store as it was. -/
theorem startupCheck_write_rejected (clock : Nat → Int) (reads : Nat) (rnd : String)
    (item : Option StoredItem) (h : isTruthy item = false) :
    startupCheck ⟨StorageMode.writesFail, item⟩ clock reads rnd
      = (Completion.normal (),
          { storage := ⟨StorageMode.writesFail, item⟩
            clock := clock
            clockReads := reads + 2
            randomText := rnd
            tab := { Tab.initial with
              myToken := some (startToken clock reads rnd)
              overlay := some storageAccessMessage
              bodyOverflowHidden := true } }) := by
  simp [startupCheck, startToken, checkAndManageInstance, generateToken, dateNow,
    mathRandomText, modifyTab, getTab, localStorageGetItem, localStorageSetItem,
    acquireOrRefreshLock, jsonStringify, displayInstanceError, stopHeartbeat,
    pageLoad, Tab.initial, bind, pure, JsM.andThen, JsM.ret, JsM.tryCatch, h]

/-- With a stale stored value and a storage that takes the write, the check
replaces the value by this tab's record and sets the tab up. -/
theorem startupCheck_takes_over (clock : Nat → Int) (reads : Nat) (rnd : String)
    (token : JsValue) (timestamp : JsNumber)
    (h : numGt (numSub (clock (reads + 1)) timestamp) maxLockAge = true) :
    startupCheck ⟨StorageMode.working, some (StoredItem.json token timestamp)⟩ clock reads rnd
      = (Completion.normal (),
          { storage := ⟨StorageMode.working,
                        some (lockRecord (startToken clock reads rnd) (clock (reads + 2)))⟩
            clock := clock
            clockReads := reads + 3
            randomText := rnd
            tab := { Tab.initial with
              myToken := some (startToken clock reads rnd)
              isLockedByThisTab := true
              beforeunloadReleaseLock := true
              heartbeatInterval := some 1
              intervals := [1]
              intervalsCreated := 1 } }) := by
  simp [startupCheck, startToken, lockRecord, checkAndManageInstance, generateToken, dateNow,
    mathRandomText, modifyTab, getTab, localStorageGetItem, localStorageSetItem, isTruthy,
    jsonParse, lockTimestamp, acquireOrRefreshLock, jsonStringify, startHeartbeat,
    setInterval, stopHeartbeat, pageLoad, Tab.initial, bind, pure, JsM.andThen, JsM.ret,
    JsM.tryCatch, h]

/-- With a stale stored value and a storage that rejects the write, the check
ends with the storage overlay and the store as it was. -/
theorem startupCheck_takeover_rejected (clock : Nat → Int) (reads : Nat) (rnd : String)
    (token : JsValue) (timestamp : JsNumber)
    (h : numGt (numSub (clock (reads + 1)) timestamp) maxLockAge = true) :
    startupCheck ⟨StorageMode.writesFail, some (StoredItem.json token timestamp)⟩ clock reads rnd
      = (Completion.normal (),
          { storage := ⟨StorageMode.writesFail, some (StoredItem.json token timestamp)⟩
            clock := clock
            clockReads := reads + 3
            randomText := rnd
            tab := { Tab.initial with
              myToken := some (startToken clock reads rnd)
              overlay := some storageAccessMessage
              bodyOverflowHidden := true } }) := by
  simp [startupCheck, startToken, checkAndManageInstance, generateToken, dateNow,
    mathRandomText, modifyTab, getTab, localStorageGetItem, localStorageSetItem, isTruthy,
    jsonParse, lockTimestamp, acquireOrRefreshLock, jsonStringify, displayInstanceError,
    stopHeartbeat, pageLoad, Tab.initial, bind, pure, JsM.andThen, JsM.ret,
    JsM.tryCatch, h]

/-- When the storage cannot be read, the check ends with the lock-check overlay
after the single clock reading of `generateToken`. -/
theorem startupCheck_inaccessible (clock : Nat → Int) (reads : Nat) (rnd : String)
    (item : Option StoredItem) :
    startupCheck ⟨StorageMode.inaccessible, item⟩ clock reads rnd
      = (Completion.normal (),
          { storage := ⟨StorageMode.inaccessible, item⟩
            clock := clock
            clockReads := reads + 1
            randomText := rnd
            tab := { Tab.initial with
              myToken := some (startToken clock reads rnd)
              overlay := some lockCheckMessage
              bodyOverflowHidden := true } }) := by
  simp [startupCheck, startToken, checkAndManageInstance, generateToken, dateNow,
    mathRandomText, modifyTab, getTab, localStorageGetItem, displayInstanceError,
    stopHeartbeat, pageLoad, Tab.initial, bind, pure, JsM.andThen, JsM.ret, JsM.tryCatch]

/-- A non-empty text that `JSON.parse` rejects, in a readable storage, ends the
check with the lock-check overlay; the text stays. -/
theorem startupCheck_malformed (mode : StorageMode) (clock : Nat → Int) (reads : Nat)
    (rnd text : String) (hmode : mode ≠ StorageMode.inaccessible) (htext : text ≠ "") :
    startupCheck ⟨mode, some (StoredItem.malformed text)⟩ clock reads rnd
      = (Completion.normal (),
          { storage := ⟨mode, some (StoredItem.malformed text)⟩
            clock := clock
            clockReads := reads + 1
            randomText := rnd
            tab := { Tab.initial with
              myToken := some (startToken clock reads rnd)
              overlay := some lockCheckMessage
              bodyOverflowHidden := true } }) := by
  cases mode <;>
  simp_all [startupCheck, startToken, checkAndManageInstance, generateToken, dateNow,
    mathRandomText, modifyTab, getTab, localStorageGetItem, isTruthy, jsonParse,
    displayInstanceError, stopHeartbeat, pageLoad, Tab.initial, bind, pure, JsM.andThen,
    JsM.ret, JsM.tryCatch, JsM.raise]

/-- The text `null`, in a readable storage, ends the check with the lock-check
overlay (reading `.timestamp` of `null` throws); the text stays. -/
theorem startupCheck_jsonNull (mode : StorageMode) (clock : Nat → Int) (reads : Nat)
    (rnd : String) (hmode : mode ≠ StorageMode.inaccessible) :
    startupCheck ⟨mode, some StoredItem.jsonNull⟩ clock reads rnd
      = (Completion.normal (),
          { storage := ⟨mode, some StoredItem.jsonNull⟩
            clock := clock
            clockReads := reads + 2
            randomText := rnd
            tab := { Tab.initial with
              myToken := some (startToken clock reads rnd)
              overlay := some lockCheckMessage
              bodyOverflowHidden := true } }) := by
  cases mode <;>
  simp_all [startupCheck, startToken, checkAndManageInstance, generateToken, dateNow,
    mathRandomText, modifyTab, getTab, localStorageGetItem, isTruthy, jsonParse,
    lockTimestamp, displayInstanceError, stopHeartbeat, pageLoad, Tab.initial, bind, pure,
    JsM.andThen, JsM.ret, JsM.tryCatch, JsM.raise]

end SingleInstance

namespace SingleInstance

/-! ## Startup check: P2, P1, P3 -/

/-- Claim C1 (P2, Scenario B). A freshly loaded tab whose startup check finds a
LockRecord of another token that is fresh, `now - timestamp ≤ maxLockAge` with
`now = clock (reads + 1)` the reading of line 140 (the bound 15000 included),
does not acquire: the check returns, `isLockedByThisTab` stays false, the tab is
not `ACTIVE` (no release handler, no timer), the overlay is shown, and the store
keeps the same token and timestamp. -/
theorem startupCheck_fresh_record_blocks (mode : StorageMode) (clock : Nat → Int)
    (reads : Nat) (rnd token : String) (timestamp : Int)
    (hfresh : clock (reads + 1) - timestamp ≤ maxLockAge)
    (_hother : token ≠ startToken clock reads rnd) :
    (startupCheck ⟨mode, some (lockRecord token timestamp)⟩ clock reads rnd).1
        = Completion.normal () ∧
    (startupCheck ⟨mode, some (lockRecord token timestamp)⟩ clock reads rnd).2.tab.isLockedByThisTab
        = false ∧
    (startupCheck ⟨mode, some (lockRecord token timestamp)⟩ clock reads rnd).2.tab.isActive
        = false ∧
    (startupCheck ⟨mode, some (lockRecord token timestamp)⟩ clock reads rnd).2.tab.isBlocked
        = true ∧
    (startupCheck ⟨mode, some (lockRecord token timestamp)⟩ clock reads rnd).2.tab.overlay
        = some (if mode = StorageMode.inaccessible then lockCheckMessage
                else otherInstanceMessage) ∧
    (startupCheck ⟨mode, some (lockRecord token timestamp)⟩ clock reads rnd).2.storage
        = ⟨mode, some (lockRecord token timestamp)⟩ := by
  have h : numGt (numSub (clock (reads + 1)) (JsNumber.int timestamp)) maxLockAge = false := by
    simp [numGt, numSub, hfresh]
  unfold lockRecord
  rw [startupCheck_not_stale mode clock reads rnd _ _ h]
  simp [Tab.isActive, Tab.isBlocked, Tab.initial]

/-- Witness of C1 at the boundary: a record of `tokenA` aged exactly 15000 ms
blocks the tab that starts at time 100000. -/
theorem startupCheck_fresh_record_blocks_witness :
    (startupCheck ⟨StorageMode.working, some (lockRecord "tokenA" 85000)⟩
        (fun _ => 100000) 0 "b").1 = Completion.normal () ∧
    (startupCheck ⟨StorageMode.working, some (lockRecord "tokenA" 85000)⟩
        (fun _ => 100000) 0 "b").2.tab.isLockedByThisTab = false ∧
    (startupCheck ⟨StorageMode.working, some (lockRecord "tokenA" 85000)⟩
        (fun _ => 100000) 0 "b").2.tab.isActive = false ∧
    (startupCheck ⟨StorageMode.working, some (lockRecord "tokenA" 85000)⟩
        (fun _ => 100000) 0 "b").2.tab.isBlocked = true ∧
    (startupCheck ⟨StorageMode.working, some (lockRecord "tokenA" 85000)⟩
        (fun _ => 100000) 0 "b").2.tab.overlay = some otherInstanceMessage ∧
    (startupCheck ⟨StorageMode.working, some (lockRecord "tokenA" 85000)⟩
        (fun _ => 100000) 0 "b").2.storage
        = ⟨StorageMode.working, some (lockRecord "tokenA" 85000)⟩ :=
  startupCheck_fresh_record_blocks StorageMode.working (fun _ => 100000) 0 "b" "tokenA" 85000
    (by decide) (by decide)

/-- Counterexample to C2 as stated: with no record under the key but a storage
that rejects the write (`setItem` throws, line 62), the startup check does not
acquire: the tab is not `ACTIVE`, the storage overlay is shown and the store
still holds no record. -/
theorem startupCheck_no_record_write_rejected :
    (startupCheck ⟨StorageMode.writesFail, none⟩ (fun _ => 1000) 0 "abc").2.tab.isActive
        = false ∧
    (startupCheck ⟨StorageMode.writesFail, none⟩ (fun _ => 1000) 0 "abc").2.tab.isLockedByThisTab
        = false ∧
    (startupCheck ⟨StorageMode.writesFail, none⟩ (fun _ => 1000) 0 "abc").2.tab.overlay
        = some storageAccessMessage ∧
    (startupCheck ⟨StorageMode.writesFail, none⟩ (fun _ => 1000) 0 "abc").2.storage.item
        = none := by
  rw [startupCheck_write_rejected (fun _ => 1000) 0 "abc" none rfl]
  simp [Tab.isActive, Tab.initial]

/-- Claim C2 (P1, Scenario A), amended: when no record is under the key and the
store takes the write, the startup check acquires: the tab ends `ACTIVE` with no
overlay, and the store holds exactly `{token: T, timestamp: t0}` with `T` the
token generated for this tab and `t0 = clock (reads + 1)` the reading taken for
the write. -/
theorem startupCheck_no_record_acquires (storage : Storage) (clock : Nat → Int)
    (reads : Nat) (rnd : String)
    (hnone : storage.item = none) (hwrite : storage.mode = StorageMode.working) :
    (startupCheck storage clock reads rnd).1 = Completion.normal () ∧
    (startupCheck storage clock reads rnd).2.tab.isActive = true ∧
    (startupCheck storage clock reads rnd).2.tab.myToken = some (startToken clock reads rnd) ∧
    (startupCheck storage clock reads rnd).2.tab.overlay = none ∧
    (startupCheck storage clock reads rnd).2.storage
        = ⟨StorageMode.working,
           some (lockRecord (startToken clock reads rnd) (clock (reads + 1)))⟩ := by
  obtain ⟨mode, item⟩ := storage
  simp only at hnone hwrite
  subst hnone hwrite
  rw [startupCheck_acquires clock reads rnd none rfl]
  simp [Tab.isActive, Tab.heartbeatRunning, Tab.initial]

/-- Witness of C2 (Scenario A): the empty store becomes `{"1000-abc", 1000}`. -/
theorem startupCheck_no_record_acquires_witness :
    (startupCheck ⟨StorageMode.working, none⟩ (fun _ => 1000) 0 "abc").1
        = Completion.normal () ∧
    (startupCheck ⟨StorageMode.working, none⟩ (fun _ => 1000) 0 "abc").2.tab.isActive = true ∧
    (startupCheck ⟨StorageMode.working, none⟩ (fun _ => 1000) 0 "abc").2.tab.myToken
        = some "1000-abc" ∧
    (startupCheck ⟨StorageMode.working, none⟩ (fun _ => 1000) 0 "abc").2.tab.overlay = none ∧
    (startupCheck ⟨StorageMode.working, none⟩ (fun _ => 1000) 0 "abc").2.storage
        = ⟨StorageMode.working, some (lockRecord "1000-abc" 1000)⟩ :=
  startupCheck_no_record_acquires ⟨StorageMode.working, none⟩ (fun _ => 1000) 0 "abc" rfl rfl

/-- Counterexample to C3 as stated: a record aged 20000 ms in a storage that
rejects the write is not taken over: the tab is not `ACTIVE`, the storage
overlay is shown and the store still holds the old record. -/
theorem startupCheck_stale_write_rejected :
    (startupCheck ⟨StorageMode.writesFail, some (lockRecord "tokenA" 80000)⟩
        (fun _ => 100000) 0 "b").2.tab.isActive = false ∧
    (startupCheck ⟨StorageMode.writesFail, some (lockRecord "tokenA" 80000)⟩
        (fun _ => 100000) 0 "b").2.tab.isLockedByThisTab = false ∧
    (startupCheck ⟨StorageMode.writesFail, some (lockRecord "tokenA" 80000)⟩
        (fun _ => 100000) 0 "b").2.tab.overlay = some storageAccessMessage ∧
    (startupCheck ⟨StorageMode.writesFail, some (lockRecord "tokenA" 80000)⟩
        (fun _ => 100000) 0 "b").2.storage.item = some (lockRecord "tokenA" 80000) := by
  unfold lockRecord
  rw [startupCheck_takeover_rejected _ _ _ _ _ (by decide)]
  simp [Tab.isActive, Tab.initial]

/-- Claim C3 (P3, Scenario C), amended: when the stored record is stale,
`now - timestamp > maxLockAge` with `now = clock (reads + 1)` the reading of
line 140, whatever its token, and the store takes the write, the startup check
takes the lock over: the tab ends `ACTIVE` with no overlay, and the store holds
the new tab's token with the timestamp read for the write,
`clock (reads + 2)`. -/
theorem startupCheck_stale_record_takeover (storage : Storage) (clock : Nat → Int)
    (reads : Nat) (rnd : String) (token : JsValue) (timestamp : Int)
    (hitem : storage.item = some (StoredItem.json token (JsNumber.int timestamp)))
    (hstale : clock (reads + 1) - timestamp > maxLockAge)
    (hwrite : storage.mode = StorageMode.working) :
    (startupCheck storage clock reads rnd).1 = Completion.normal () ∧
    (startupCheck storage clock reads rnd).2.tab.isActive = true ∧
    (startupCheck storage clock reads rnd).2.tab.myToken = some (startToken clock reads rnd) ∧
    (startupCheck storage clock reads rnd).2.tab.overlay = none ∧
    (startupCheck storage clock reads rnd).2.storage
        = ⟨StorageMode.working,
           some (lockRecord (startToken clock reads rnd) (clock (reads + 2)))⟩ := by
  obtain ⟨mode, item⟩ := storage
  simp only at hitem hwrite
  subst hitem hwrite
  have h : numGt (numSub (clock (reads + 1)) (JsNumber.int timestamp)) maxLockAge = true := by
    simpa [numGt, numSub] using hstale
  rw [startupCheck_takes_over clock reads rnd token _ h]
  simp [Tab.isActive, Tab.heartbeatRunning, Tab.initial]

/-- Witness of C3 (Scenario C): `{tokenA, now - 20000}` becomes `{tokenB, now}`
for the tab that starts at `now = 100000` and is given the token `100000-b`. -/
theorem startupCheck_stale_record_takeover_witness :
    (startupCheck ⟨StorageMode.working, some (lockRecord "tokenA" 80000)⟩
        (fun _ => 100000) 0 "b").1 = Completion.normal () ∧
    (startupCheck ⟨StorageMode.working, some (lockRecord "tokenA" 80000)⟩
        (fun _ => 100000) 0 "b").2.tab.isActive = true ∧
    (startupCheck ⟨StorageMode.working, some (lockRecord "tokenA" 80000)⟩
        (fun _ => 100000) 0 "b").2.tab.myToken = some "100000-b" ∧
    (startupCheck ⟨StorageMode.working, some (lockRecord "tokenA" 80000)⟩
        (fun _ => 100000) 0 "b").2.tab.overlay = none ∧
    (startupCheck ⟨StorageMode.working, some (lockRecord "tokenA" 80000)⟩
        (fun _ => 100000) 0 "b").2.storage
        = ⟨StorageMode.working, some (lockRecord "100000-b" 100000)⟩ :=
  startupCheck_stale_record_takeover ⟨StorageMode.working, some (lockRecord "tokenA" 80000)⟩
    (fun _ => 100000) 0 "b" (JsValue.string "tokenA") 80000 rfl (by decide) rfl

end SingleInstance

namespace SingleInstance

/-! ## Support lemmas: stopping, acquiring, releasing, ticking -/

/-- The function `stopHeartbeat` never throws and only changes the tab, to
`heartbeatStopped`. -/
theorem stopHeartbeat_eq (w : World) :
    stopHeartbeat w = (Completion.normal (), { w with tab := w.tab.heartbeatStopped }) := by
  unfold stopHeartbeat Tab.heartbeatStopped
  simp only [bind, JsM.andThen, getTab]
  cases hh : w.tab.heartbeatInterval with
  | none => simp [pure, JsM.ret, ← hh]
  | some handle =>
    by_cases h0 : handle = 0
    · simp [h0, pure, JsM.ret, ← hh]
    · simp [h0, clearInterval, modifyTab, bind, JsM.andThen]

/-- After `stopHeartbeat` the renewal loop is not running. -/
theorem heartbeatStopped_not_running (t : Tab) : t.heartbeatStopped.heartbeatRunning = false := by
  unfold Tab.heartbeatStopped Tab.heartbeatRunning
  cases hh : t.heartbeatInterval with
  | none => simp [hh]
  | some handle =>
    by_cases h0 : handle = 0
    · simp [h0, hh]
    · simp [h0]

/-- Stopping twice is stopping once. -/
theorem heartbeatStopped_idem (t : Tab) : t.heartbeatStopped.heartbeatStopped = t.heartbeatStopped := by
  unfold Tab.heartbeatStopped
  cases hh : t.heartbeatInterval with
  | none => simp [hh]
  | some handle =>
    by_cases h0 : handle = 0
    · simp [h0, hh]
    · simp [h0]

/-- In a storage that takes the write, `acquireOrRefreshLock` stores
`{myToken, now}`, sets the flag and returns `true`. -/
theorem acquireOrRefreshLock_working (w : World) (hmode : w.storage.mode = StorageMode.working) :
    acquireOrRefreshLock w = (Completion.normal true,
      { w with
        storage := ⟨StorageMode.working, some (jsonStringify w.tab.myToken (w.clock w.clockReads))⟩
        clockReads := w.clockReads + 1
        tab := { w.tab with isLockedByThisTab := true } }) := by
  obtain ⟨⟨mode, item⟩, clock, reads, rnd, tab⟩ := w
  simp only at hmode
  subst hmode
  simp [acquireOrRefreshLock, getTab, dateNow, localStorageSetItem, modifyTab, bind, pure,
    JsM.andThen, JsM.ret, JsM.tryCatch]

/-- In a storage that rejects the write, `acquireOrRefreshLock` leaves the
store alone, shows the storage overlay, stops the heartbeat, clears the flag and
returns `false`. -/
theorem acquireOrRefreshLock_rejected (w : World) (hmode : w.storage.mode ≠ StorageMode.working) :
    acquireOrRefreshLock w = (Completion.normal false,
      { w with
        clockReads := w.clockReads + 1
        tab := { Tab.heartbeatStopped
                   { w.tab with overlay := some storageAccessMessage, bodyOverflowHidden := true }
                 with isLockedByThisTab := false } }) := by
  obtain ⟨⟨mode, item⟩, clock, reads, rnd, tab⟩ := w
  simp only at hmode
  cases mode <;> first | exact absurd rfl hmode | skip
  all_goals
    simp [acquireOrRefreshLock, getTab, dateNow, localStorageSetItem, modifyTab,
      displayInstanceError, stopHeartbeat_eq, bind, pure, JsM.andThen, JsM.ret, JsM.tryCatch]

/-- A tab that does not hold the lock: `releaseLock` returns at line 74. -/
theorem releaseLock_not_held (w : World) (h : w.tab.isLockedByThisTab = false) :
    releaseLock w = (Completion.normal (), w) := by
  simp [releaseLock, getTab, h, bind, pure, JsM.andThen, JsM.ret]

/-- A tab that holds the lock: `releaseLock` never throws, empties the slot
exactly when the storage is readable and the stored token is its own, stops the
heartbeat and clears the flag. -/
theorem releaseLock_held (w : World) (hheld : w.tab.isLockedByThisTab = true) :
    releaseLock w = (Completion.normal (),
      { w with
        storage := ⟨w.storage.mode,
          if w.storage.mode = StorageMode.inaccessible then w.storage.item
          else releasedItem w.tab.myToken w.storage.item⟩
        tab := { w.tab.heartbeatStopped with isLockedByThisTab := false } }) := by
  obtain ⟨⟨mode, item⟩, clock, reads, rnd, tab⟩ := w
  simp only at hheld
  cases mode <;> rcases item with _ | text | _ | ⟨tok, num⟩ <;>
    simp [releaseLock, getTab, hheld, localStorageGetItem, isTruthy, jsonParse, lockToken,
      localStorageRemoveItem, stopHeartbeat_eq, modifyTab, releasedItem, bind, pure,
      JsM.andThen, JsM.ret, JsM.tryCatch, JsM.raise]
  all_goals
    (split_ifs <;> simp_all [JsM.ret, JsM.raise, JsM.andThen, localStorageRemoveItem])

/-- A tick of a tab whose flag is clear only stops the loop. -/
theorem heartbeatTick_not_held (w : World) (h : w.tab.isLockedByThisTab = false) :
    heartbeatTick w = (Completion.normal (), { w with tab := w.tab.heartbeatStopped }) := by
  simp [heartbeatTick, getTab, h, stopHeartbeat_eq, bind, JsM.andThen]

/-- A tick of a tab whose flag is set, in a storage that takes the write,
rewrites the slot with `{myToken, now}` and changes nothing in the tab. -/
theorem heartbeatTick_working (w : World) (hheld : w.tab.isLockedByThisTab = true)
    (hmode : w.storage.mode = StorageMode.working) :
    heartbeatTick w = (Completion.normal (),
      { w with
        storage := ⟨StorageMode.working, some (jsonStringify w.tab.myToken (w.clock w.clockReads))⟩
        clockReads := w.clockReads + 1 }) := by
  have hw : ({ w.tab with isLockedByThisTab := true } : Tab) = w.tab := by
    cases htab : w.tab
    simp [htab] at hheld
    simp [hheld]
  simp [heartbeatTick, getTab, hheld, acquireOrRefreshLock_working w hmode, hw, bind, pure,
    JsM.andThen, JsM.ret, JsM.tryCatch]

/-- A tick of a tab whose flag is set, in a storage that rejects the write,
leaves the store alone, shows the storage overlay, stops the loop and clears
the flag. -/
theorem heartbeatTick_rejected (w : World) (hheld : w.tab.isLockedByThisTab = true)
    (hmode : w.storage.mode ≠ StorageMode.working) :
    heartbeatTick w = (Completion.normal (),
      { w with
        clockReads := w.clockReads + 1
        tab := { Tab.heartbeatStopped
                   { w.tab with overlay := some storageAccessMessage, bodyOverflowHidden := true }
                 with isLockedByThisTab := false } }) := by
  have hstop : ∀ t : Tab,
      Tab.heartbeatStopped { t.heartbeatStopped with isLockedByThisTab := false }
        = { t.heartbeatStopped with isLockedByThisTab := false } := by
    intro t
    have h := heartbeatStopped_idem t
    unfold Tab.heartbeatStopped at h ⊢
    cases hh : t.heartbeatInterval with
    | none => simp [hh]
    | some handle =>
      by_cases h0 : handle = 0
      · simp [h0, hh]
      · simp [h0]
  simp [heartbeatTick, getTab, hheld, acquireOrRefreshLock_rejected w hmode, stopHeartbeat_eq,
    hstop, bind, pure, JsM.andThen, JsM.ret, JsM.tryCatch]

end SingleInstance

namespace SingleInstance

/-! ## Release: P5, P6 -/

/-- Counterexample to C4 as stated. The tab that acquired `{1000-a, 1000}` still
holds the lock and its own record is still in the store, but at unload the
storage can no longer be read: `getItem` throws at line 77, the catch of line 88
swallows it, and the record stays although its token equals the tab's token. -/
theorem releaseLock_unreadable_storage_keeps_own_record :
    (withStorage (startupCheck ⟨StorageMode.working, none⟩ (fun _ => 1000) 0 "a").2
        ⟨StorageMode.inaccessible, some (lockRecord "1000-a" 1000)⟩).tab.isLockedByThisTab
      = true ∧
    (withStorage (startupCheck ⟨StorageMode.working, none⟩ (fun _ => 1000) 0 "a").2
        ⟨StorageMode.inaccessible, some (lockRecord "1000-a" 1000)⟩).tab.myToken
      = some "1000-a" ∧
    storedToken (withStorage (startupCheck ⟨StorageMode.working, none⟩ (fun _ => 1000) 0 "a").2
        ⟨StorageMode.inaccessible, some (lockRecord "1000-a" 1000)⟩).storage.item
      = some "1000-a" ∧
    (releaseLock (withStorage (startupCheck ⟨StorageMode.working, none⟩ (fun _ => 1000) 0 "a").2
        ⟨StorageMode.inaccessible, some (lockRecord "1000-a" 1000)⟩)).1
      = Completion.normal () ∧
    (releaseLock (withStorage (startupCheck ⟨StorageMode.working, none⟩ (fun _ => 1000) 0 "a").2
        ⟨StorageMode.inaccessible, some (lockRecord "1000-a" 1000)⟩)).2.storage.item
      = some (lockRecord "1000-a" 1000) := by
  refine ⟨by decide, by decide, by decide, by decide, by decide⟩

/-- Claim C4 (P5, Scenario E), amended. For a tab that holds the lock with token
`T`, on a page whose storage can be read, and for every content of the slot:
`releaseLock` returns normally; it removes the stored value if and only if the
stored token equals `T`; in every other case (another token, no token, no
value) the store after the release is the store before. -/
theorem releaseLock_removes_iff_token_matches (w : World) (T : String)
    (hheld : w.tab.isLockedByThisTab = true) (htoken : w.tab.myToken = some T)
    (hread : w.storage.mode ≠ StorageMode.inaccessible) :
    (releaseLock w).1 = Completion.normal () ∧
    ((w.storage.item ≠ none ∧ (releaseLock w).2.storage.item = none)
        ↔ storedToken w.storage.item = some T) ∧
    (storedToken w.storage.item ≠ some T → (releaseLock w).2.storage = w.storage) := by
  rw [releaseLock_held w hheld]
  obtain ⟨⟨mode, item⟩, clock, reads, rnd, tab⟩ := w
  simp only at hheld htoken hread
  rcases item with _ | text | _ | ⟨tok, num⟩
  · simp [hread, htoken, releasedItem, storedToken]
  · simp [hread, htoken, releasedItem, storedToken]
  · simp [hread, htoken, releasedItem, storedToken]
  · cases tok <;> simp [hread, htoken, releasedItem, storedToken, strictEqToken]

/-- Witness of C4 (Scenario E): the tab that acquired with token `1000-a` finds
`{tokenB, 7000}` in the store at unload and leaves it there. -/
theorem releaseLock_removes_iff_token_matches_witness :
    (releaseLock (withStorage (startupCheck ⟨StorageMode.working, none⟩ (fun _ => 1000) 0 "a").2
        ⟨StorageMode.working, some (lockRecord "tokenB" 7000)⟩)).1 = Completion.normal () ∧
    (((withStorage (startupCheck ⟨StorageMode.working, none⟩ (fun _ => 1000) 0 "a").2
        ⟨StorageMode.working, some (lockRecord "tokenB" 7000)⟩).storage.item ≠ none ∧
      (releaseLock (withStorage (startupCheck ⟨StorageMode.working, none⟩ (fun _ => 1000) 0 "a").2
        ⟨StorageMode.working, some (lockRecord "tokenB" 7000)⟩)).2.storage.item = none)
        ↔ storedToken (withStorage (startupCheck ⟨StorageMode.working, none⟩ (fun _ => 1000) 0 "a").2
            ⟨StorageMode.working, some (lockRecord "tokenB" 7000)⟩).storage.item
          = some "1000-a") ∧
    (storedToken (withStorage (startupCheck ⟨StorageMode.working, none⟩ (fun _ => 1000) 0 "a").2
        ⟨StorageMode.working, some (lockRecord "tokenB" 7000)⟩).storage.item ≠ some "1000-a" →
      (releaseLock (withStorage (startupCheck ⟨StorageMode.working, none⟩ (fun _ => 1000) 0 "a").2
        ⟨StorageMode.working, some (lockRecord "tokenB" 7000)⟩)).2.storage
        = ⟨StorageMode.working, some (lockRecord "tokenB" 7000)⟩) :=
  releaseLock_removes_iff_token_matches
    (withStorage (startupCheck ⟨StorageMode.working, none⟩ (fun _ => 1000) 0 "a").2
      ⟨StorageMode.working, some (lockRecord "tokenB" 7000)⟩)
    "1000-a" rfl rfl (by decide)

/-- Claim C10 (P6). For every tab state and every store content, unparseable
values included: `releaseLock` never throws; called by a tab that does not hold
the lock it changes neither the store nor the tab; and a second call leaves
the world the first call produced. -/
theorem releaseLock_idempotent (w : World) :
    (releaseLock w).1 = Completion.normal () ∧
    (w.tab.isLockedByThisTab = false → releaseLock w = (Completion.normal (), w)) ∧
    releaseLock (releaseLock w).2 = (Completion.normal (), (releaseLock w).2) := by
  cases hheld : w.tab.isLockedByThisTab with
  | false =>
    refine ⟨?_, fun _ => releaseLock_not_held w hheld, ?_⟩
    · rw [releaseLock_not_held w hheld]
    · rw [releaseLock_not_held w hheld]
      exact releaseLock_not_held w hheld
  | true =>
    refine ⟨?_, fun h => absurd h (by simp), ?_⟩
    · rw [releaseLock_held w hheld]
    · rw [releaseLock_held w hheld]
      exact releaseLock_not_held _ rfl

/-- Witness of C10: on an unparseable stored text, a tab that holds the lock
releases without throwing and without touching the text, and the second call
changes nothing. -/
theorem releaseLock_idempotent_witness :
    (releaseLock (withStorage (startupCheck ⟨StorageMode.working, none⟩ (fun _ => 1000) 0 "a").2
        ⟨StorageMode.working, some (StoredItem.malformed "\x7boops")⟩)).1 = Completion.normal () ∧
    (releaseLock (withStorage (startupCheck ⟨StorageMode.working, none⟩ (fun _ => 1000) 0 "a").2
        ⟨StorageMode.working, some (StoredItem.malformed "\x7boops")⟩)).2.storage.item
      = some (StoredItem.malformed "\x7boops") ∧
    (releaseLock (releaseLock (withStorage
        (startupCheck ⟨StorageMode.working, none⟩ (fun _ => 1000) 0 "a").2
        ⟨StorageMode.working, some (StoredItem.malformed "\x7boops")⟩)).2).2.tab
      = (releaseLock (withStorage (startupCheck ⟨StorageMode.working, none⟩ (fun _ => 1000) 0 "a").2
        ⟨StorageMode.working, some (StoredItem.malformed "\x7boops")⟩)).2.tab :=
  ⟨(releaseLock_idempotent _).1, by decide,
   congrArg (fun r => r.2.tab) (releaseLock_idempotent _).2.2⟩

end SingleInstance

namespace SingleInstance

/-! ## Heartbeat: ownership, P4, renewal failure -/

/-- Counterexample to C5 as stated. Tab A acquires at time 1000 with token
`1000-a` and then misses its ticks; tab B starts at 20000, finds A's record
stale and takes over with `{20000-b, 20000}`. A's next tick, at 21000, finds a
record of another token aged 1000 ms and replaces it by `{1000-a, 21000}`. -/
theorem heartbeatTick_overwrites_fresh_foreign_record :
    (startupCheck
        (startupCheck ⟨StorageMode.working, none⟩ (fun k => if k < 2 then 1000 else 21000)
          0 "a").2.storage
        (fun _ => 20000) 0 "b").2.storage.item = some (lockRecord "20000-b" 20000) ∧
    "20000-b" ≠ "1000-a" ∧
    (21000 : Int) - 20000 ≤ maxLockAge ∧
    (heartbeatTick (withStorage
        (startupCheck ⟨StorageMode.working, none⟩ (fun k => if k < 2 then 1000 else 21000)
          0 "a").2
        (startupCheck
          (startupCheck ⟨StorageMode.working, none⟩ (fun k => if k < 2 then 1000 else 21000)
            0 "a").2.storage
          (fun _ => 20000) 0 "b").2.storage)).2.storage.item
      = some (lockRecord "1000-a" 21000) := by
  refine ⟨by decide, by decide, by decide, by decide⟩

/-- Claim C5, amended. In the startup check and in `releaseLock`, a stored
LockRecord is deleted or overwritten only if its token is the tab's own or the
record is stale (`now - timestamp > maxLockAge` at the reading of line 140).
A heartbeat tick does not read the store: with the flag `isLockedByThisTab` set
and a store that takes the write it replaces whatever is stored by
`{myToken, now}`; with the flag clear it leaves the store as it is. -/
theorem ownership_of_stored_record :
    (∀ (storage : Storage) (clock : Nat → Int) (reads : Nat) (rnd token : String)
        (timestamp : Int),
        storage.item = some (lockRecord token timestamp) →
        (startupCheck storage clock reads rnd).2.storage ≠ storage →
        token = startToken clock reads rnd ∨ clock (reads + 1) - timestamp > maxLockAge) ∧
    (∀ (w : World) (token : String) (timestamp : Int),
        w.storage.item = some (lockRecord token timestamp) →
        (releaseLock w).2.storage ≠ w.storage →
        w.tab.myToken = some token) ∧
    (∀ (w : World), w.tab.isLockedByThisTab = true → w.storage.mode = StorageMode.working →
        (heartbeatTick w).2.storage
          = ⟨StorageMode.working, some (jsonStringify w.tab.myToken (w.clock w.clockReads))⟩) ∧
    (∀ (w : World), w.tab.isLockedByThisTab = false → (heartbeatTick w).2.storage = w.storage) := by
  refine ⟨?_, ?_, ?_, ?_⟩
  · intro storage clock reads rnd token timestamp hitem hchanged
    obtain ⟨mode, item⟩ := storage
    simp only at hitem
    subst hitem
    by_cases hstale : clock (reads + 1) - timestamp > maxLockAge
    · exact Or.inr hstale
    · exfalso
      apply hchanged
      have h : numGt (numSub (clock (reads + 1)) (JsNumber.int timestamp)) maxLockAge = false := by
        simpa [numGt, numSub] using hstale
      unfold lockRecord
      rw [startupCheck_not_stale mode clock reads rnd _ _ h]
  · intro w token timestamp hitem hchanged
    cases hheld : w.tab.isLockedByThisTab with
    | false =>
      rw [releaseLock_not_held w hheld] at hchanged
      exact absurd rfl hchanged
    | true =>
      rw [releaseLock_held w hheld] at hchanged
      obtain ⟨⟨mode, item⟩, clock, reads, rnd, tab⟩ := w
      simp only at hitem hchanged ⊢
      subst hitem
      by_cases hmode : mode = StorageMode.inaccessible
      · simp [hmode] at hchanged
      · cases hmy : tab.myToken with
        | none => simp [hmode, hmy, releasedItem, lockRecord, strictEqToken] at hchanged
        | some t =>
          by_cases ht : token = t
          · rw [ht]
          · simp [hmode, hmy, releasedItem, lockRecord, strictEqToken, ht] at hchanged
  · intro w hheld hmode
    rw [heartbeatTick_working w hheld hmode]
  · intro w hheld
    rw [heartbeatTick_not_held w hheld]

/-- Witness of C5 (amended): tab A, which acquired with token `1000-a`, finds
B's fresh record `{20000-b, 20000}` in the store; its release leaves the record
in place, while its tick at 21000 writes `{1000-a, 21000}` over it. -/
theorem ownership_of_stored_record_witness :
    (releaseLock (withStorage
        (startupCheck ⟨StorageMode.working, none⟩ (fun k => if k < 2 then 1000 else 21000)
          0 "a").2
        ⟨StorageMode.working, some (lockRecord "20000-b" 20000)⟩)).2.storage
      = ⟨StorageMode.working, some (lockRecord "20000-b" 20000)⟩ ∧
    (heartbeatTick (withStorage
        (startupCheck ⟨StorageMode.working, none⟩ (fun k => if k < 2 then 1000 else 21000)
          0 "a").2
        ⟨StorageMode.working, some (lockRecord "20000-b" 20000)⟩)).2.storage
      = ⟨StorageMode.working, some (lockRecord "1000-a" 21000)⟩ :=
  ⟨by decide,
   ownership_of_stored_record.2.2.1
     (withStorage
        (startupCheck ⟨StorageMode.working, none⟩ (fun k => if k < 2 then 1000 else 21000)
          0 "a").2
        ⟨StorageMode.working, some (lockRecord "20000-b" 20000)⟩) rfl rfl⟩

/-- Claim C6 (P4, Scenario D). For a tab that holds the lock with token `T`,
acquired at `t0`, and whose renewal loop is running: the tick at time
`t0 + k * 5000`, `k ≥ 1`, whose write succeeds leaves the store holding
`{token: T, timestamp: t0 + k * 5000}`; the tab keeps its token and every other
variable, and the renewal loop is still running. -/
theorem heartbeatTick_refreshes_timestamp (w : World) (T : String) (t0 : Int) (k : Nat)
    (hheld : w.tab.isLockedByThisTab = true) (htoken : w.tab.myToken = some T)
    (hloop : w.tab.heartbeatRunning = true) (_hk : 1 ≤ k)
    (hnow : w.clock w.clockReads = t0 + k * heartbeatFrequency)
    (hwrite : w.storage.mode = StorageMode.working) :
    (heartbeatTick w).1 = Completion.normal () ∧
    (heartbeatTick w).2.storage
      = ⟨StorageMode.working, some (lockRecord T (t0 + k * heartbeatFrequency))⟩ ∧
    (heartbeatTick w).2.tab = w.tab ∧
    (heartbeatTick w).2.tab.myToken = some T ∧
    (heartbeatTick w).2.tab.heartbeatRunning = true := by
  rw [heartbeatTick_working w hheld hwrite]
  simp [htoken, hloop, hnow, jsonStringify, lockRecord]

/-- Witness of C6 (Scenario D): the tab that acquired `{1000-a, 1000}` ticks at
6000 and the store becomes `{1000-a, 6000}`, loop still running. -/
theorem heartbeatTick_refreshes_timestamp_witness :
    (heartbeatTick
        (startupCheck ⟨StorageMode.working, none⟩ (fun k => if k < 2 then 1000 else 6000)
          0 "a").2).1 = Completion.normal () ∧
    (heartbeatTick
        (startupCheck ⟨StorageMode.working, none⟩ (fun k => if k < 2 then 1000 else 6000)
          0 "a").2).2.storage
      = ⟨StorageMode.working, some (lockRecord "1000-a" (1000 + (1 : Nat) * heartbeatFrequency))⟩ ∧
    (heartbeatTick
        (startupCheck ⟨StorageMode.working, none⟩ (fun k => if k < 2 then 1000 else 6000)
          0 "a").2).2.tab
      = (startupCheck ⟨StorageMode.working, none⟩ (fun k => if k < 2 then 1000 else 6000)
          0 "a").2.tab ∧
    (heartbeatTick
        (startupCheck ⟨StorageMode.working, none⟩ (fun k => if k < 2 then 1000 else 6000)
          0 "a").2).2.tab.myToken = some "1000-a" ∧
    (heartbeatTick
        (startupCheck ⟨StorageMode.working, none⟩ (fun k => if k < 2 then 1000 else 6000)
          0 "a").2).2.tab.heartbeatRunning = true :=
  heartbeatTick_refreshes_timestamp
    (startupCheck ⟨StorageMode.working, none⟩ (fun k => if k < 2 then 1000 else 6000) 0 "a").2
    "1000-a" 1000 1 rfl rfl rfl (by decide) (by decide) rfl

/-- Counterexample to C7 as stated: the tab that acquired `{1000-a, 1000}`
ticks while the store rejects writes; before the tick it shows no overlay and
holds the lock, after the tick the storage overlay is shown and
`isLockedByThisTab` is false. -/
theorem heartbeatTick_write_failure_shows_overlay :
    (withStorage (startupCheck ⟨StorageMode.working, none⟩ (fun _ => 1000) 0 "a").2
        ⟨StorageMode.writesFail, some (lockRecord "1000-a" 1000)⟩).tab.overlay = none ∧
    (withStorage (startupCheck ⟨StorageMode.working, none⟩ (fun _ => 1000) 0 "a").2
        ⟨StorageMode.writesFail, some (lockRecord "1000-a" 1000)⟩).tab.isLockedByThisTab = true ∧
    (heartbeatTick (withStorage (startupCheck ⟨StorageMode.working, none⟩ (fun _ => 1000) 0 "a").2
        ⟨StorageMode.writesFail, some (lockRecord "1000-a" 1000)⟩)).2.tab.overlay
      = some storageAccessMessage ∧
    (heartbeatTick (withStorage (startupCheck ⟨StorageMode.working, none⟩ (fun _ => 1000) 0 "a").2
        ⟨StorageMode.writesFail, some (lockRecord "1000-a" 1000)⟩)).2.tab.isLockedByThisTab
      = false := by
  refine ⟨by decide, by decide, by decide, by decide⟩

/-- Claim C7, amended. When the write of a heartbeat tick fails, the tick
returns normally and the store is as it was; the tab stops the renewal loop,
shows the blocking overlay with the storage message, locks the page scroll and
clears `isLockedByThisTab`; its token and its unload handler are left as they
were. -/
theorem heartbeatTick_write_failure (w : World)
    (hheld : w.tab.isLockedByThisTab = true)
    (hfail : w.storage.mode ≠ StorageMode.working) :
    (heartbeatTick w).1 = Completion.normal () ∧
    (heartbeatTick w).2.storage = w.storage ∧
    (heartbeatTick w).2.tab.heartbeatRunning = false ∧
    (heartbeatTick w).2.tab.overlay = some storageAccessMessage ∧
    (heartbeatTick w).2.tab.bodyOverflowHidden = true ∧
    (heartbeatTick w).2.tab.isLockedByThisTab = false ∧
    (heartbeatTick w).2.tab.myToken = w.tab.myToken ∧
    (heartbeatTick w).2.tab.beforeunloadReleaseLock = w.tab.beforeunloadReleaseLock := by
  rw [heartbeatTick_rejected w hheld hfail]
  have hrun := heartbeatStopped_not_running
    { w.tab with overlay := some storageAccessMessage, bodyOverflowHidden := true }
  refine ⟨rfl, rfl, ?_, ?_, ?_, rfl, ?_, ?_⟩
  · simpa [Tab.heartbeatRunning] using hrun
  all_goals
    simp only [Tab.heartbeatStopped]
    split
    · split <;> rfl
    · rfl

/-- Witness of C7 (amended): the tab that acquired `{1000-a, 1000}` ticks while
the store rejects writes. -/
theorem heartbeatTick_write_failure_witness :
    (heartbeatTick (withStorage (startupCheck ⟨StorageMode.working, none⟩ (fun _ => 1000) 0 "a").2
        ⟨StorageMode.writesFail, some (lockRecord "1000-a" 1000)⟩)).2.storage
      = ⟨StorageMode.writesFail, some (lockRecord "1000-a" 1000)⟩ ∧
    (heartbeatTick (withStorage (startupCheck ⟨StorageMode.working, none⟩ (fun _ => 1000) 0 "a").2
        ⟨StorageMode.writesFail, some (lockRecord "1000-a" 1000)⟩)).2.tab.heartbeatInterval
      = none :=
  ⟨(heartbeatTick_write_failure
      (withStorage (startupCheck ⟨StorageMode.working, none⟩ (fun _ => 1000) 0 "a").2
        ⟨StorageMode.writesFail, some (lockRecord "1000-a" 1000)⟩) rfl (by decide)).2.1,
   by decide⟩

end SingleInstance

namespace SingleInstance

/-! ## Startup check: blocked outcomes and corrupt values -/

/-- Every startup check returns normally and ends in one of two shapes: the tab
set up as lock holder, or the tab halted behind an overlay with the store as it
was. -/
theorem startupCheck_outcome (storage : Storage) (clock : Nat → Int) (reads : Nat)
    (rnd : String) :
    (startupCheck storage clock reads rnd).1 = Completion.normal () ∧
    ((startupCheck storage clock reads rnd).2.tab
        = { Tab.initial with
            myToken := some (startToken clock reads rnd)
            isLockedByThisTab := true
            beforeunloadReleaseLock := true
            heartbeatInterval := some 1
            intervals := [1]
            intervalsCreated := 1 } ∧
      (startupCheck storage clock reads rnd).2.storage.mode = StorageMode.working ∨
     (∃ message : String,
        (startupCheck storage clock reads rnd).2.tab
          = { Tab.initial with
              myToken := some (startToken clock reads rnd)
              overlay := some message
              bodyOverflowHidden := true }) ∧
      (startupCheck storage clock reads rnd).2.storage = storage) := by
  obtain ⟨mode, item⟩ := storage
  cases mode
  · -- working
    rcases item with _ | text | _ | ⟨tok, num⟩
    · rw [startupCheck_acquires clock reads rnd none rfl]; simp
    · by_cases ht : text = ""
      · rw [startupCheck_acquires clock reads rnd _ (by simp [isTruthy, ht])]; simp
      · rw [startupCheck_malformed _ clock reads rnd text (by decide) ht]; simp
    · rw [startupCheck_jsonNull _ clock reads rnd (by decide)]; simp
    · cases h : numGt (numSub (clock (reads + 1)) num) maxLockAge
      · rw [startupCheck_not_stale _ clock reads rnd tok num h]; simp
      · rw [startupCheck_takes_over clock reads rnd tok num h]; simp
  · -- writesFail
    rcases item with _ | text | _ | ⟨tok, num⟩
    · rw [startupCheck_write_rejected clock reads rnd none rfl]; simp
    · by_cases ht : text = ""
      · rw [startupCheck_write_rejected clock reads rnd _ (by simp [isTruthy, ht])]; simp
      · rw [startupCheck_malformed _ clock reads rnd text (by decide) ht]; simp
    · rw [startupCheck_jsonNull _ clock reads rnd (by decide)]; simp
    · cases h : numGt (numSub (clock (reads + 1)) num) maxLockAge
      · rw [startupCheck_not_stale _ clock reads rnd tok num h]; simp
      · rw [startupCheck_takeover_rejected clock reads rnd tok num h]; simp
  · rw [startupCheck_inaccessible clock reads rnd item]; simp

/-- Claim C8. Every startup check returns, and one that does not end `ACTIVE`
(fresh value present, write of the acquisition or takeover rejected, read or
parse failed) leaves the tab `BLOCKED` and inert: the overlay is shown,
`heartbeatInterval` is null and no timer of the page runs, no unload handler is
registered and `isLockedByThisTab` is false; `releaseLock` and a heartbeat tick,
were they run afterwards, would leave the store as it is. -/
theorem startupCheck_blocked_is_inert (storage : Storage) (clock : Nat → Int) (reads : Nat)
    (rnd : String)
    (hblocked : (startupCheck storage clock reads rnd).2.tab.isActive = false) :
    (startupCheck storage clock reads rnd).1 = Completion.normal () ∧
    (startupCheck storage clock reads rnd).2.tab.overlay ≠ none ∧
    (startupCheck storage clock reads rnd).2.tab.heartbeatInterval = none ∧
    (startupCheck storage clock reads rnd).2.tab.intervals = [] ∧
    (startupCheck storage clock reads rnd).2.tab.beforeunloadReleaseLock = false ∧
    (startupCheck storage clock reads rnd).2.tab.isLockedByThisTab = false ∧
    (startupCheck storage clock reads rnd).2.tab.isBlocked = true ∧
    (releaseLock (startupCheck storage clock reads rnd).2).2.storage
      = (startupCheck storage clock reads rnd).2.storage ∧
    (heartbeatTick (startupCheck storage clock reads rnd).2).2.storage
      = (startupCheck storage clock reads rnd).2.storage := by
  obtain ⟨hret, hshape⟩ := startupCheck_outcome storage clock reads rnd
  rcases hshape with ⟨hactive, _⟩ | ⟨⟨message, hhalt⟩, _⟩
  · rw [hactive] at hblocked
    simp [Tab.isActive, Tab.heartbeatRunning, Tab.initial] at hblocked
  · have hflag : (startupCheck storage clock reads rnd).2.tab.isLockedByThisTab = false := by
      rw [hhalt]; rfl
    refine ⟨hret, ?_, ?_, ?_, ?_, hflag, ?_, ?_, ?_⟩
    · rw [hhalt]; simp
    · rw [hhalt]; rfl
    · rw [hhalt]; rfl
    · rw [hhalt]; rfl
    · rw [hhalt]; simp [Tab.isBlocked, Tab.initial]
    · rw [releaseLock_not_held _ hflag]
    · rw [heartbeatTick_not_held _ hflag]

/-- Witness of C8: the check that finds the storage full ends blocked and
inert. -/
theorem startupCheck_blocked_is_inert_witness :
    (startupCheck ⟨StorageMode.writesFail, none⟩ (fun _ => 1000) 0 "a").2.tab.isActive = false ∧
    (startupCheck ⟨StorageMode.writesFail, none⟩ (fun _ => 1000) 0 "a").2.tab.isBlocked = true ∧
    (startupCheck ⟨StorageMode.writesFail, none⟩ (fun _ => 1000) 0 "a").2.tab.heartbeatInterval
      = none :=
  ⟨by decide,
   (startupCheck_blocked_is_inert ⟨StorageMode.writesFail, none⟩ (fun _ => 1000) 0 "a"
      (by decide)).2.2.2.2.2.2.1,
   (startupCheck_blocked_is_inert ⟨StorageMode.writesFail, none⟩ (fun _ => 1000) 0 "a"
      (by decide)).2.2.1⟩

/-- Counterexample to C9 as stated. The empty text under the lock key is
present and is no LockRecord (`JSON.parse` rejects it), yet the check treats it
as absent, acquires and overwrites it; the text `{}` parses but is no
LockRecord either, and the check shows the other-instance overlay for it, not
the lock-check one. -/
theorem startupCheck_non_record_not_reported_corrupt :
    (startupCheck ⟨StorageMode.working, some (StoredItem.malformed "")⟩
        (fun _ => 1000) 0 "a").2.tab.isActive = true ∧
    (startupCheck ⟨StorageMode.working, some (StoredItem.malformed "")⟩
        (fun _ => 1000) 0 "a").2.tab.overlay = none ∧
    (startupCheck ⟨StorageMode.working, some (StoredItem.malformed "")⟩
        (fun _ => 1000) 0 "a").2.storage.item = some (lockRecord "1000-a" 1000) ∧
    (startupCheck ⟨StorageMode.working, some (StoredItem.json JsValue.undefined JsNumber.nan)⟩
        (fun _ => 1000) 0 "a").2.tab.overlay = some otherInstanceMessage := by
  refine ⟨by decide, by decide, by decide, by decide⟩

/-- Claim C9, amended. For every stored value on which the `try` block of the
check throws (a non-empty text that `JSON.parse` rejects, or the text `null`),
the startup check ends `BLOCKED` with the lock-check overlay, neither the
other-instance overlay nor a takeover, and the value stays in the store
unchanged. -/
theorem startupCheck_corrupt_value_blocks (mode : StorageMode) (clock : Nat → Int)
    (reads : Nat) (rnd : String) (item : StoredItem)
    (hcorrupt : readThrows item = true) :
    (startupCheck ⟨mode, some item⟩ clock reads rnd).1 = Completion.normal () ∧
    (startupCheck ⟨mode, some item⟩ clock reads rnd).2.tab.isBlocked = true ∧
    (startupCheck ⟨mode, some item⟩ clock reads rnd).2.tab.isActive = false ∧
    (startupCheck ⟨mode, some item⟩ clock reads rnd).2.tab.overlay = some lockCheckMessage ∧
    (startupCheck ⟨mode, some item⟩ clock reads rnd).2.storage = ⟨mode, some item⟩ := by
  by_cases hmode : mode = StorageMode.inaccessible
  · subst hmode
    rw [startupCheck_inaccessible clock reads rnd (some item)]
    simp [Tab.isBlocked, Tab.isActive, Tab.initial]
  · rcases item with text | _ | ⟨tok, num⟩
    · have ht : text ≠ "" := by simpa [readThrows] using hcorrupt
      rw [startupCheck_malformed mode clock reads rnd text hmode ht]
      simp [Tab.isBlocked, Tab.isActive, Tab.initial]
    · rw [startupCheck_jsonNull mode clock reads rnd hmode]
      simp [Tab.isBlocked, Tab.isActive, Tab.initial]
    · simp [readThrows] at hcorrupt

/-- Witness of C9 (amended): a truncated JSON text blocks the tab and stays
in the store. -/
theorem startupCheck_corrupt_value_blocks_witness :
    (startupCheck ⟨StorageMode.working, some (StoredItem.malformed "\x7boops")⟩
        (fun _ => 1000) 0 "a").2.tab.overlay = some lockCheckMessage ∧
    (startupCheck ⟨StorageMode.working, some (StoredItem.malformed "\x7boops")⟩
        (fun _ => 1000) 0 "a").2.storage
      = ⟨StorageMode.working, some (StoredItem.malformed "\x7boops")⟩ :=
  ⟨(startupCheck_corrupt_value_blocks StorageMode.working (fun _ => 1000) 0 "a"
      (StoredItem.malformed "\x7boops") (by decide)).2.2.2.1,
   (startupCheck_corrupt_value_blocks StorageMode.working (fun _ => 1000) 0 "a"
      (StoredItem.malformed "\x7boops") (by decide)).2.2.2.2⟩

end SingleInstance

namespace SingleInstance

/-! ## Reachable states: a lock holder can read the storage -/

/-- The world after a startup check satisfies `lockHolderCanRead`: the flag is
set only when the write went through. -/
theorem startupCheck_lockHolderCanRead (storage : Storage) (clock : Nat → Int) (reads : Nat)
    (rnd : String) : lockHolderCanRead (startupCheck storage clock reads rnd).2 := by
  intro hheld
  obtain ⟨_, hshape⟩ := startupCheck_outcome storage clock reads rnd
  rcases hshape with ⟨_, hmode⟩ | ⟨⟨message, hhalt⟩, _⟩
  · rw [hmode]; decide
  · rw [hhalt] at hheld
    simp [Tab.initial] at hheld

/-- After a heartbeat tick `lockHolderCanRead` holds: the tick never sets a flag
that was clear, and keeps a set flag only when its write went through. -/
theorem heartbeatTick_lockHolderCanRead (w : World) :
    lockHolderCanRead (heartbeatTick w).2 := by
  intro hheld
  cases hflag : w.tab.isLockedByThisTab with
  | false =>
    rw [heartbeatTick_not_held w hflag] at hheld
    have hkeep : w.tab.heartbeatStopped.isLockedByThisTab = w.tab.isLockedByThisTab := by
      simp only [Tab.heartbeatStopped]
      split
      · split <;> rfl
      · rfl
    simp only [hkeep, hflag] at hheld
    exact absurd hheld (by simp)
  | true =>
    by_cases hmode : w.storage.mode = StorageMode.working
    · rw [heartbeatTick_working w hflag hmode]; simp
    · rw [heartbeatTick_rejected w hflag hmode] at hheld
      simp at hheld

/-- After `releaseLock` the flag is clear, so `lockHolderCanRead` holds. -/
theorem releaseLock_lockHolderCanRead (w : World) (h : lockHolderCanRead w) :
    lockHolderCanRead (releaseLock w).2 := by
  intro hheld
  cases hflag : w.tab.isLockedByThisTab with
  | false =>
    rw [releaseLock_not_held w hflag] at hheld ⊢
    exact h hheld
  | true =>
    rw [releaseLock_held w hflag] at hheld
    simp at hheld

end SingleInstance

namespace SingleInstance

/-! ## No self-expiry under an on-schedule heartbeat -/

/-- With every tick on schedule and every write accepted, `n` ticks leave the
store holding `{T, t0 + n * 5000}` and the tab as it was; only the clock has been
read `n` more times. -/
theorem heartbeatTicks_on_schedule (w : World) (T : String) (t0 : Int)
    (hheld : w.tab.isLockedByThisTab = true) (htoken : w.tab.myToken = some T)
    (hstore : w.storage = ⟨StorageMode.working, some (lockRecord T t0)⟩)
    (hschedule : ∀ j : Nat, w.clock (w.clockReads + j) = t0 + heartbeatFrequency * (j + 1))
    (n : Nat) :
    heartbeatTicks n w
      = { w with
          storage := ⟨StorageMode.working, some (lockRecord T (t0 + heartbeatFrequency * n))⟩
          clockReads := w.clockReads + n } := by
  induction n with
  | zero =>
    obtain ⟨storage, clock, reads, rnd, tab⟩ := w
    simp only at hstore
    simp [heartbeatTicks, hstore]
  | succ n ih =>
    simp only [heartbeatTicks]
    rw [ih]
    have hstep := heartbeatTick_working
      { w with
        storage := ⟨StorageMode.working, some (lockRecord T (t0 + heartbeatFrequency * n))⟩
        clockReads := w.clockReads + n } hheld rfl
    rw [hstep]
    simp [htoken, hschedule n, jsonStringify, lockRecord]
    omega

/-- Every time from `t0` on lies between two consecutive scheduled ticks. -/
theorem tick_window_exists (t0 t : Int) (ht : t0 ≤ t) :
    ∃ n : Nat, t0 + heartbeatFrequency * n ≤ t ∧ t ≤ t0 + heartbeatFrequency * (n + 1) := by
  refine ⟨((t - t0) / heartbeatFrequency).toNat, ?_, ?_⟩
  all_goals
    simp only [heartbeatFrequency]
    omega

/-- Counterexample to C11 as stated. Tab B acquires `{1000-b, 1000}` and is then
frozen: it runs no code and writes nothing. Tab A starts at 20000, finds B's
record stale and takes over with `{20000-a, 20000}`; its ticks fire on schedule,
the `j`-th at `20000 + 5000 * (j + 1)`, each write accepted, and nobody else
touches the store. All premises of the claim hold for A with `t0 = 20000`, yet
after any number of ticks A is `ACTIVE` while B, in its own page, is `ACTIVE`
too: two tabs are `ACTIVE` at every time from `t0` on. -/
theorem two_tabs_active_after_takeover :
    (startupCheck ⟨StorageMode.working, none⟩ (fun _ => 1000) 0 "b").2.tab.isActive = true ∧
    (startupCheck (startupCheck ⟨StorageMode.working, none⟩ (fun _ => 1000) 0 "b").2.storage
        (fun k => if k < 3 then 20000 else 20000 + 5000 * ((k : Int) - 2)) 0 "a").2.tab.myToken
      = some "20000-a" ∧
    (startupCheck (startupCheck ⟨StorageMode.working, none⟩ (fun _ => 1000) 0 "b").2.storage
        (fun k => if k < 3 then 20000 else 20000 + 5000 * ((k : Int) - 2)) 0 "a").2.storage
      = ⟨StorageMode.working, some (lockRecord "20000-a" 20000)⟩ ∧
    (∀ j : Nat,
      (startupCheck (startupCheck ⟨StorageMode.working, none⟩ (fun _ => 1000) 0 "b").2.storage
          (fun k => if k < 3 then 20000 else 20000 + 5000 * ((k : Int) - 2)) 0 "a").2.clock
        ((startupCheck (startupCheck ⟨StorageMode.working, none⟩ (fun _ => 1000) 0 "b").2.storage
          (fun k => if k < 3 then 20000 else 20000 + 5000 * ((k : Int) - 2)) 0 "a").2.clockReads
          + j)
        = 20000 + heartbeatFrequency * (j + 1)) ∧
    (∀ n : Nat,
      (heartbeatTicks n
        (startupCheck (startupCheck ⟨StorageMode.working, none⟩ (fun _ => 1000) 0 "b").2.storage
          (fun k => if k < 3 then 20000 else 20000 + 5000 * ((k : Int) - 2)) 0 "a").2).storage
        = ⟨StorageMode.working, some (lockRecord "20000-a" (20000 + heartbeatFrequency * n))⟩ ∧
      (heartbeatTicks n
        (startupCheck (startupCheck ⟨StorageMode.working, none⟩ (fun _ => 1000) 0 "b").2.storage
          (fun k => if k < 3 then 20000 else 20000 + 5000 * ((k : Int) - 2)) 0 "a").2).tab.isActive
        = true) := by
  have hschedule : ∀ j : Nat,
      (startupCheck (startupCheck ⟨StorageMode.working, none⟩ (fun _ => 1000) 0 "b").2.storage
          (fun k => if k < 3 then 20000 else 20000 + 5000 * ((k : Int) - 2)) 0 "a").2.clock
        ((startupCheck (startupCheck ⟨StorageMode.working, none⟩ (fun _ => 1000) 0 "b").2.storage
          (fun k => if k < 3 then 20000 else 20000 + 5000 * ((k : Int) - 2)) 0 "a").2.clockReads
          + j)
        = 20000 + heartbeatFrequency * (j + 1) := by
    intro j
    have hclock :
        (startupCheck (startupCheck ⟨StorageMode.working, none⟩ (fun _ => 1000) 0 "b").2.storage
          (fun k => if k < 3 then 20000 else 20000 + 5000 * ((k : Int) - 2)) 0 "a").2.clock
          = fun k : Nat => if k < 3 then 20000 else 20000 + 5000 * ((k : Int) - 2) := rfl
    have hreads :
        (startupCheck (startupCheck ⟨StorageMode.working, none⟩ (fun _ => 1000) 0 "b").2.storage
          (fun k => if k < 3 then 20000 else 20000 + 5000 * ((k : Int) - 2)) 0 "a").2.clockReads
          = 3 := by decide
    rw [hclock, hreads]
    simp only [heartbeatFrequency]
    have hj : ¬ (3 + j < 3) := by omega
    simp only [hj, if_false]
    push_cast
    ring
  have hactive :
      (startupCheck (startupCheck ⟨StorageMode.working, none⟩ (fun _ => 1000) 0 "b").2.storage
          (fun k => if k < 3 then 20000 else 20000 + 5000 * ((k : Int) - 2)) 0 "a").2.tab.isActive
        = true := by decide
  refine ⟨by decide, by decide, by decide, hschedule, ?_⟩
  intro n
  rw [heartbeatTicks_on_schedule
    (startupCheck (startupCheck ⟨StorageMode.working, none⟩ (fun _ => 1000) 0 "b").2.storage
          (fun k => if k < 3 then 20000 else 20000 + 5000 * ((k : Int) - 2)) 0 "a").2
    "20000-a" 20000 (by decide) (by decide) (by decide) hschedule n]
  exact ⟨rfl, hactive⟩

/-- Claim C11, amended. Tab A holds the lock with token `T`, its record `{T, t0}`
is in the store, every heartbeat tick fires on schedule (the `j`-th at
`t0 + 5000 * (j + 1)`) with its write accepted, and nobody else writes. Then
every time `t ≥ t0` lies between two consecutive ticks, and for the `n` ticks
fired by then: tab A is as it was, the store holds a record of token `T` whose
age at `t` is between 0 and `heartbeatFrequency`, hence at most `maxLockAge`;
and every other tab whose startup check reads the time `t` at line 140 finds it
fresh, ends `BLOCKED` (not `ACTIVE`, other-instance overlay unless it cannot
read the storage at all) and leaves the store unchanged. Nothing is said of
tabs that were `ACTIVE` before `t0`. -/
theorem no_self_expiry_on_schedule (w : World) (T : String) (t0 t : Int)
    (hheld : w.tab.isLockedByThisTab = true) (htoken : w.tab.myToken = some T)
    (hstore : w.storage = ⟨StorageMode.working, some (lockRecord T t0)⟩)
    (hschedule : ∀ j : Nat, w.clock (w.clockReads + j) = t0 + heartbeatFrequency * (j + 1))
    (ht : t0 ≤ t) :
    heartbeatFrequency < maxLockAge ∧
    (∃ n : Nat, t0 + heartbeatFrequency * n ≤ t ∧ t ≤ t0 + heartbeatFrequency * (n + 1)) ∧
    ∀ n : Nat, t0 + heartbeatFrequency * n ≤ t → t ≤ t0 + heartbeatFrequency * (n + 1) →
      (heartbeatTicks n w).tab = w.tab ∧
      ∃ timestamp : Int,
        (heartbeatTicks n w).storage = ⟨StorageMode.working, some (lockRecord T timestamp)⟩ ∧
        0 ≤ t - timestamp ∧ t - timestamp ≤ heartbeatFrequency ∧ t - timestamp ≤ maxLockAge ∧
        ∀ (mode : StorageMode) (clock : Nat → Int) (reads : Nat) (rnd : String),
          clock (reads + 1) = t →
          (startupCheck ⟨mode, (heartbeatTicks n w).storage.item⟩ clock reads rnd).1
              = Completion.normal () ∧
          (startupCheck ⟨mode, (heartbeatTicks n w).storage.item⟩ clock reads rnd).2.tab.isBlocked
              = true ∧
          (startupCheck ⟨mode, (heartbeatTicks n w).storage.item⟩ clock reads rnd).2.tab.isActive
              = false ∧
          (startupCheck ⟨mode, (heartbeatTicks n w).storage.item⟩ clock reads rnd).2.tab.overlay
              = some (if mode = StorageMode.inaccessible then lockCheckMessage
                      else otherInstanceMessage) ∧
          (startupCheck ⟨mode, (heartbeatTicks n w).storage.item⟩ clock reads rnd).2.storage
              = ⟨mode, some (lockRecord T timestamp)⟩ := by
  refine ⟨by decide, tick_window_exists t0 t ht, ?_⟩
  intro n hlo hhi
  rw [heartbeatTicks_on_schedule w T t0 hheld htoken hstore hschedule n]
  refine ⟨rfl, t0 + heartbeatFrequency * n, rfl, ?_, ?_, ?_, ?_⟩
  · omega
  · simp only [heartbeatFrequency] at hhi ⊢; omega
  · simp only [heartbeatFrequency, maxLockAge] at hhi ⊢; omega
  · intro mode clock reads rnd hclock
    have hfresh : numGt (numSub (clock (reads + 1))
        (JsNumber.int (t0 + heartbeatFrequency * n))) maxLockAge = false := by
      simp only [numGt, numSub, hclock, heartbeatFrequency, maxLockAge, decide_eq_false_iff_not,
        not_lt] at hhi ⊢
      omega
    simp only [lockRecord]
    rw [startupCheck_not_stale mode clock reads rnd _ _ hfresh]
    simp [Tab.isActive, Tab.isBlocked, Tab.initial]

/-- Witness of C11. Tab A acquires `{1000-a, 1000}` by its startup check and
ticks at 6000, 11000, ...; at time 13000, two ticks fired, the store holds
`{1000-a, 11000}`, tab A is unchanged, and tab B, whose check reads 13000, ends
`BLOCKED` and not `ACTIVE`. -/
theorem no_self_expiry_on_schedule_witness :
    (heartbeatTicks 2
        (startupCheck ⟨StorageMode.working, none⟩
          (fun k => if k < 2 then 1000 else 1000 + 5000 * ((k : Int) - 1)) 0 "a").2).tab
      = (startupCheck ⟨StorageMode.working, none⟩
          (fun k => if k < 2 then 1000 else 1000 + 5000 * ((k : Int) - 1)) 0 "a").2.tab ∧
    (heartbeatTicks 2
        (startupCheck ⟨StorageMode.working, none⟩
          (fun k => if k < 2 then 1000 else 1000 + 5000 * ((k : Int) - 1)) 0 "a").2).storage
      = ⟨StorageMode.working, some (lockRecord "1000-a" 11000)⟩ ∧
    (startupCheck
        ⟨StorageMode.working,
         (heartbeatTicks 2
            (startupCheck ⟨StorageMode.working, none⟩
              (fun k => if k < 2 then 1000 else 1000 + 5000 * ((k : Int) - 1)) 0 "a").2).storage.item⟩
        (fun _ => 13000) 0 "b").2.tab.isBlocked = true ∧
    (startupCheck
        ⟨StorageMode.working,
         (heartbeatTicks 2
            (startupCheck ⟨StorageMode.working, none⟩
              (fun k => if k < 2 then 1000 else 1000 + 5000 * ((k : Int) - 1)) 0 "a").2).storage.item⟩
        (fun _ => 13000) 0 "b").2.tab.isActive = false := by
  have hschedule : ∀ j : Nat,
      (startupCheck ⟨StorageMode.working, none⟩
          (fun k => if k < 2 then 1000 else 1000 + 5000 * ((k : Int) - 1)) 0 "a").2.clock
        ((startupCheck ⟨StorageMode.working, none⟩
          (fun k => if k < 2 then 1000 else 1000 + 5000 * ((k : Int) - 1)) 0 "a").2.clockReads + j)
        = 1000 + heartbeatFrequency * (j + 1) := by
    intro j
    rw [startupCheck_acquires _ 0 "a" none rfl]
    simp only [heartbeatFrequency]
    have hj : ¬ (0 + 2 + j < 2) := by omega
    simp only [hj, if_false]
    push_cast
    ring
  obtain ⟨_, _, hticks⟩ := no_self_expiry_on_schedule
    (startupCheck ⟨StorageMode.working, none⟩
      (fun k => if k < 2 then 1000 else 1000 + 5000 * ((k : Int) - 1)) 0 "a").2
    "1000-a" 1000 13000 (by decide) (by decide) (by decide) hschedule (by decide)
  obtain ⟨htab, timestamp, _, _, _, _, hcheck⟩ := hticks 2 (by decide) (by decide)
  obtain ⟨_, hblocked, hinactive, _, _⟩ := hcheck StorageMode.working (fun _ => 13000) 0 "b" rfl
  exact ⟨htab, by decide, hblocked, hinactive⟩

end SingleInstance
